import Mathlib

/-!
Shallow embedding of the `k3proc` subprocess-execution engine (`proc.py`).

Pure data manipulation (argument-vector resolution, environment merging,
option defaulting, `splitlines`, error construction) is translated directly.
Interaction with the operating system is made explicit:

* the child process's observable behaviour (exit code, bytes written,
  exit time) is a parameter `Behavior` of the model;
* the pty output-multiplexing loop of `command` is modelled as a small-step
  function over a schedule of rounds, where each round lists the child
  events (writes / exit) that become visible before that iteration's
  `poll()` call, matching the loop
  `while subproc.poll() is None: select(...); read(...); timeout-check`;
* `subprocess.Popen` environment semantics (`env=None` means the child
  inherits `os.environ`) and the `TimeoutExpired` value built by
  `Popen.communicate` (it carries `self.args`, the argument-vector list,
  and the timeout) are modelled where `command` relies on them;
* `os.waitpid` in `_waitpid` is modelled by a trace of attempt results
  (success, or an `OSError` with an errno).
-/

namespace K3Proc

/-- A byte string (Python `bytes`), as a list of byte values. -/
abbrev Bytes := List Nat

/-- A Python value that is either `str` or `bytes`. -/
inductive StrOrBytes where
  | s (v : String)
  | b (v : Bytes)
  deriving DecidableEq

/-- The result of Python `splitlines` on a `str` or a `bytes` value. -/
inductive Lines where
  | s (v : List String)
  | b (v : List Bytes)
  deriving DecidableEq

/-- Line boundary characters of Python `str.splitlines`. -/
def isLineBoundary (c : Char) : Bool :=
  c = '\n' || c = '\r' || c = '\x0b' || c = '\x0c' ||
  c = '\x1c' || c = '\x1d' || c = '\x1e' || c = '\x85' ||
  c = '\u2028' || c = '\u2029'

/-- Python `str.splitlines` on a character list; `acc` is the current line,
reversed.  `"\r\n"` counts as a single boundary; a trailing boundary does not
produce an extra empty line. -/
def strSplitlinesAux (acc : List Char) : List Char → List (List Char)
  | [] => if acc.isEmpty then [] else [acc.reverse]
  | '\r' :: '\n' :: rest => acc.reverse :: strSplitlinesAux [] rest
  | c :: rest =>
    if isLineBoundary c then acc.reverse :: strSplitlinesAux [] rest
    else strSplitlinesAux (c :: acc) rest

/-- Python `bytes.splitlines` (boundaries `\r\n`, `\r`, `\n` only). -/
def bytesSplitlinesAux (acc : Bytes) : Bytes → List Bytes
  | [] => if acc.isEmpty then [] else [acc.reverse]
  | 13 :: 10 :: rest => acc.reverse :: bytesSplitlinesAux [] rest
  | 13 :: rest => acc.reverse :: bytesSplitlinesAux [] rest
  | 10 :: rest => acc.reverse :: bytesSplitlinesAux [] rest
  | byt :: rest => bytesSplitlinesAux (byt :: acc) rest

/-- Python `v.splitlines()` for a `str`-or-`bytes` value. -/
def splitlinesSB : StrOrBytes → Lines
  | .s v => .s ((strSplitlinesAux [] v.data).map fun l => String.mk l)
  | .b v => .b (bytesSplitlinesAux [] v)

/-- The options dict built at the `raise CalledProcessError` site of
`command`: the keys `cwd`, `env`, `input` are present exactly when the
corresponding argument was not `None`. -/
structure ProcErrorOptions where
  cwd : Option String
  env : Option (List (String × String))
  input : Option String
  deriving DecidableEq

/-- `CalledProcessError` (`proc.py` lines 29-97): exit code, both streams as
one value and as a line list, the resolved argument vector and the options. -/
structure CalledProcessError where
  returncode : Int
  stdout : StrOrBytes
  stderr : StrOrBytes
  cmd : List String
  options : ProcErrorOptions
  out : Lines
  err : Lines
  deriving DecidableEq

/-- `CalledProcessError.__init__` (`proc.py` lines 56-73): stores the
arguments unchanged and sets `out`/`err` to `out.splitlines()` /
`err.splitlines()`. -/
def CalledProcessError.make (returncode : Int) (out err : StrOrBytes)
    (cmd : List String) (options : ProcErrorOptions) : CalledProcessError :=
  { returncode := returncode
    stdout := out
    stderr := err
    cmd := cmd
    options := options
    out := splitlinesSB out
    err := splitlinesSB err }

/-! ### Environments

Python dicts of environment variables are modelled as association lists;
`dictInsert` is insertion with replacement, `dictMerge base overlay` is
`dict(base, **overlay)`. -/

/-- An environment: a Python `dict[str, str]` as an association list. -/
abbrev Env := List (String × String)

/-- Dict lookup: the value at the first matching key. -/
def envLookup : Env → String → Option String
  | [], _ => none
  | (k', v) :: rest, k => if k' = k then some v else envLookup rest k

/-- Whether the dict has the key. -/
def hasKey (d : Env) (k : String) : Bool :=
  (envLookup d k).isSome

/-- Dict insertion: replace the value if the key is present, else append. -/
def dictInsert (d : Env) (kv : String × String) : Env :=
  if hasKey d kv.1 then d.map (fun p => if p.1 = kv.1 then kv else p)
  else d ++ [kv]

/-- `dict(base, **overlay)`: a copy of `base` updated with the entries of
`overlay`, later entries overriding. -/
def dictMerge (base overlay : Env) : Env :=
  overlay.foldl dictInsert base

/-! ### The spawn request

The keyword arguments of `command` (`proc.py` lines 104-132) that the model
tracks.  `cmd` is either a single string (combined with `arguments`) or an
already-structured sequence (used as-is). -/

structure Request where
  cmd : Sum String (List String)
  arguments : List String
  cwd : Option String := none
  encoding : Option String := none
  env : Option Env := none
  text : Option Bool := none
  universal_newlines : Option Bool := none
  input : Option String := none
  check : Bool := false
  inherit_env : Option Bool := none
  timeout : Option Nat := none
  capture : Option Bool := none
  tty : Option Bool := none
  deriving DecidableEq

/-- `text_mode = text in (None, True) and universal_newlines in (None, True)`
(`proc.py` line 199). -/
def text_mode (r : Request) : Bool :=
  (r.text == none || r.text == some true) &&
  (r.universal_newlines == none || r.universal_newlines == some true)

/-- `if text_mode: if encoding is None: encoding = defenc`
(`proc.py` lines 201-203); `defenc` is the system default encoding. -/
def effEncoding (r : Request) (defenc : String) : Option String :=
  if text_mode r && r.encoding == none then some defenc else r.encoding

/-- `if tty is None: tty = False` (`proc.py` lines 208-209). -/
def effTty (r : Request) : Bool :=
  r.tty.getD false

/-- `if capture is None: capture = True` then `if tty: capture = True`
(`proc.py` lines 205-213). -/
def effCapture (r : Request) : Bool :=
  if effTty r then true else r.capture.getD true

/-- `if inherit_env is None: inherit_env = True` (`proc.py` lines 215-216). -/
def effInheritEnv (r : Request) : Bool :=
  r.inherit_env.getD true

/-- `merged_env = dict(os.environ, **(env or {}))` when inheriting, else
`merged_env = env` (`proc.py` lines 218-222). -/
def mergedEnv (r : Request) (environ : Env) : Option Env :=
  if effInheritEnv r then some (dictMerge environ (r.env.getD []))
  else r.env

/-- The environment the spawned child actually receives: `merged_env` is
passed to `subprocess.Popen(..., env=merged_env, ...)`, and Popen gives the
child `os.environ` when `env` is `None`. -/
def childEnv (r : Request) (environ : Env) : Env :=
  match mergedEnv r environ with
  | none => environ
  | some e => e

/-- Argument-vector resolution (`proc.py` lines 224-228):
`cmds = [cmd] + list(arguments)` when `cmd` is a string, else
`cmds = list(cmd)`. -/
def cmds (r : Request) : List String :=
  match r.cmd with
  | .inl s => s :: r.arguments
  | .inr l => l

/-! ### The pty output-multiplexing loop

`proc.py` lines 275-292:

    while subproc.poll() is None:
        r, _, _ = select.select([err_master_fd, out_master_fd], [], [], 0.01)
        if out_master_fd in r:
            out_chunks.append(os.read(out_master_fd, 10240))
        if err_master_fd in r:
            err_chunks.append(os.read(err_master_fd, 10240))
        if timeout is not None and time.time() - now > timeout:
            subproc.kill(); subproc.wait(); raise TimeoutExpired(...)

The child runs concurrently; a `PtyRound` records, for one loop iteration,
the child events that become visible before that iteration's `poll()`, and
the elapsed wall-clock time `time.time() - now` observed at that iteration's
timeout check. -/

/-- A concurrent child event: bytes written to a pty master, or exit. -/
inductive PtyEvent where
  | writeOut (bs : Bytes)
  | writeErr (bs : Bytes)
  | exited
  deriving DecidableEq

/-- One iteration of the pty loop: the events delivered before its `poll()`
and the elapsed time at its timeout check. -/
structure PtyRound where
  events : List PtyEvent
  elapsed : Nat
  deriving DecidableEq

/-- State of the pty loop: whether `poll()` reports exit, the unread bytes
pending on each pty master, and the chunk lists `out_chunks`/`err_chunks`. -/
structure PtyState where
  childExited : Bool
  outBuf : Bytes
  errBuf : Bytes
  capOut : List Bytes
  capErr : List Bytes
  deriving DecidableEq

/-- The state before the first loop iteration. -/
def initPtyState : PtyState :=
  { childExited := false, outBuf := [], errBuf := [], capOut := [], capErr := [] }

/-- Effect of one child event on the loop's view of the world. -/
def applyEvent (s : PtyState) : PtyEvent → PtyState
  | .writeOut bs => { s with outBuf := s.outBuf ++ bs }
  | .writeErr bs => { s with errBuf := s.errBuf ++ bs }
  | .exited => { s with childExited := true }

/-- Effect of a round's events. -/
def applyEvents (evs : List PtyEvent) (s : PtyState) : PtyState :=
  evs.foldl applyEvent s

/-- `select` then the two conditional `os.read(fd, 10240)` calls: a master is
ready exactly when bytes are pending on it; a read takes at most 10240 bytes;
stdout is checked first, as in the source. -/
def doReads (s : PtyState) : PtyState :=
  let s1 :=
    if s.outBuf.isEmpty then s
    else { s with outBuf := s.outBuf.drop 10240,
                  capOut := s.capOut ++ [s.outBuf.take 10240] }
  if s1.errBuf.isEmpty then s1
  else { s1 with errBuf := s1.errBuf.drop 10240,
                 capErr := s1.capErr ++ [s1.errBuf.take 10240] }

/-- Result of running the pty loop over a schedule. -/
inductive PtyLoopResult where
  | finished (s : PtyState)
  | timedOut (s : PtyState)
  | stillRunning (s : PtyState)
  deriving DecidableEq

/-- The pty loop over a schedule of rounds.  Each round: deliver the child
events, run `poll()` (exit the loop if the child has exited), `select` and
read, then check the timeout (`time.time() - now > timeout`, strict).
`stillRunning` means the schedule was exhausted while the loop would keep
iterating. -/
def ptyLoop (timeout : Option Nat) : List PtyRound → PtyState → PtyLoopResult
  | [], s => .stillRunning s
  | round :: rest, s =>
    let s1 := applyEvents round.events s
    if s1.childExited then .finished s1
    else
      let s2 := doReads s1
      match timeout with
      | some t => if t < round.elapsed then .timedOut s2 else ptyLoop timeout rest s2
      | none => ptyLoop timeout rest s2

/-- All bytes the schedule's child writes to stdout. -/
def ptyWrittenOut (rounds : List PtyRound) : Bytes :=
  (rounds.map fun rd =>
    (rd.events.map fun e =>
      match e with
      | .writeOut bs => bs
      | _ => []).flatten).flatten

/-! ### The `command` run model

The observable behaviour of the spawned child is a parameter: in pipe /
uncaptured mode `Popen.communicate` hides the draining loop, so the child is
summarised by its exit code, total written bytes and exit time; in pty mode
the loop is driven by the `rounds` schedule. -/

/-- The spawned child's observable behaviour.  `exitTime` is measured in the
same wall-clock units as `Request.timeout`; `rounds` is used only in pty
mode, where the loop (not `communicate`) observes the child. -/
structure Behavior where
  exitCode : Int
  outBytes : Bytes
  errBytes : Bytes
  exitTime : Nat
  rounds : List PtyRound
  deriving DecidableEq

/-- Whether `communicate(timeout=...)` (pipe / uncaptured mode) raises
`TimeoutExpired`: the child has not exited when the timeout elapses. -/
def timeoutFires (r : Request) (beh : Behavior) : Bool :=
  match r.timeout with
  | none => false
  | some t => t < beh.exitTime

/-- The `cmd` payload of a `subprocess.TimeoutExpired`: `communicate` builds
it from `Popen.args` (the argument-vector list); the pty branch of `command`
builds it from `" ".join(cmds)` (a single string). -/
inductive CmdField where
  | str (v : String)
  | list (v : List String)
  deriving DecidableEq

/-- `subprocess.TimeoutExpired`: the command payload and the timeout that
was exceeded. -/
structure TimeoutExpiredData where
  cmd : CmdField
  timeout : Nat
  deriving DecidableEq

/-- The outcome of one `command` call: a normal return, a raised
`CalledProcessError`, a raised `TimeoutExpired`, or `stillRunning` when the
pty schedule ended with the loop still iterating (the call has not returned
yet). -/
inductive RunOutcome where
  | ok (returncode : Int) (out err : StrOrBytes)
  | procError (e : CalledProcessError)
  | timeoutExpired (e : TimeoutExpiredData)
  | stillRunning
  deriving DecidableEq

/-- Process-lifecycle actions `command` performs on the child, in order:
`Popen` (spawn), `subproc.kill()`, `subproc.wait()` (reap), and raising
`TimeoutExpired`. -/
inductive Action where
  | spawn
  | kill
  | wait
  | raiseTimeout
  deriving DecidableEq

/-- Stand-in for text decoding of captured bytes (`communicate` in text mode
/ the `io.TextIOWrapper(...).read()` calls): each byte becomes the character
with that code point. -/
def decodeBytes (bs : Bytes) : String :=
  String.mk (bs.map fun n => Char.ofNat n)

/-- The text-or-bytes value `command` produces from captured bytes
(`proc.py` lines 297-302 for pty; `communicate`'s own text mode for pipes). -/
def captured (tm : Bool) (bs : Bytes) : StrOrBytes :=
  if tm then .s (decodeBytes bs) else .b bs

/-- The tail of `command` (`proc.py` lines 317-327): with `check` and a
non-zero exit code, raise `CalledProcessError(returncode, out, err, cmds,
opts)` where `opts` records `cwd` / `env` / `input` when supplied; else
return `(returncode, out, err)`. -/
def finishCheck (r : Request) (cs : List String) (code : Int)
    (out err : StrOrBytes) : RunOutcome :=
  if r.check && code != 0 then
    .procError (CalledProcessError.make code out err cs
      { cwd := r.cwd, env := r.env, input := r.input })
  else .ok code out err

/-- The `command` function (`proc.py` lines 104-327) on a request, the
current process environment and a child behaviour.  Returns the outcome and
the ordered list of process-lifecycle actions performed. -/
def command (r : Request) (_environ : Env) (beh : Behavior) :
    RunOutcome × List Action :=
  let tm := text_mode r
  let cs := cmds r
  if effTty r then
    match ptyLoop r.timeout beh.rounds initPtyState with
    | .timedOut _ =>
      (.timeoutExpired
        { cmd := .str (String.intercalate " " cs), timeout := r.timeout.getD 0 },
       [.spawn, .kill, .wait, .raiseTimeout])
    | .stillRunning _ => (.stillRunning, [.spawn])
    | .finished s =>
      let out := captured tm s.capOut.flatten
      let err := captured tm s.capErr.flatten
      (finishCheck r cs beh.exitCode out err, [.spawn])
  else
    if timeoutFires r beh then
      (.timeoutExpired { cmd := .list cs, timeout := r.timeout.getD 0 },
       [.spawn, .kill, .wait, .raiseTimeout])
    else
      let (out, err) :=
        if effCapture r then
          (captured tm beh.outBytes, captured tm beh.errBytes)
        else
          (.s "", .s "")
      (finishCheck r cs beh.exitCode out err, [.spawn])

/-- `command_ex` (`proc.py` lines 330-343): `command` with `check` forced
to `True`. -/
def command_ex (r : Request) (environ : Env) (beh : Behavior) :
    RunOutcome × List Action :=
  command { r with check := true } environ beh

/-- Whether a run completed (returned or raised `CalledProcessError`). -/
def completes : RunOutcome → Bool
  | .ok _ _ _ => true
  | .procError _ => true
  | _ => false

/-! ### The `_waitpid` reaping loop

`proc.py` lines 363-376: retry `os.waitpid(pid, 0)` while it raises
`OSError` with `errno == EINTR`; return on success; re-raise any other
`OSError`. -/

/-- One attempted `os.waitpid(pid, 0)` call: success (the child was reaped)
or an `OSError` with the given errno. -/
inductive WaitAttempt where
  | ok
  | err (errno : Nat)
  deriving DecidableEq

/-- `errno.EINTR`. -/
def EINTR : Nat := 4

/-- Outcome of `_waitpid` on a trace of attempt results. -/
inductive WaitOutcome where
  | returned
  | raised (errno : Nat)
  | pending
  deriving DecidableEq

/-- The `while True` loop of `_waitpid` over a finite trace of `os.waitpid`
results: break on success, retry on `EINTR`, re-raise any other errno.
`pending` means the trace was exhausted with the loop still retrying. -/
def waitpidLoop : List WaitAttempt → WaitOutcome
  | [] => .pending
  | .ok :: _ => .returned
  | .err e :: rest => if e = EINTR then waitpidLoop rest else .raised e

/-- First-wins combination of two lookup results. -/
def lookupOverlay (a b : Option String) : Option String :=
  match a with
  | some v => some v
  | none => b

/-- A pty request whose child writes one byte (0x78, `x`) to stdout and
exits before the parent's loop polls again. -/
def rC3 : Request :=
  { cmd := .inr ["prog"], arguments := [], tty := some true }

/-- The matching child behaviour: the write and the exit both become
visible before the loop's next `poll()`. -/
def behC3 : Behavior :=
  { exitCode := 0, outBytes := [120], errBytes := [], exitTime := 0,
    rounds := [{ events := [.writeOut [120], .exited], elapsed := 0 }] }

/-! ### Concrete inputs used by witnesses and counterexamples -/

/-- A plain pipe-mode request. -/
def reqC1w : Request := { cmd := .inr ["prog"], arguments := [] }

/-- A child that exits immediately with code 5. -/
def behC1w : Behavior :=
  { exitCode := 5, outBytes := [], errBytes := [], exitTime := 0, rounds := [] }

/-- A request supplying one environment entry, inheriting by default. -/
def reqC2w : Request :=
  { cmd := .inr ["prog"], arguments := [], env := some [("K", "V")] }

/-- A request with `inherit_env=False` and no environment mapping. -/
def reqC2cex : Request :=
  { cmd := .inr ["prog"], arguments := [], inherit_env := some false }

/-- A pipe-mode request with a 1-tick timeout. -/
def reqC4w : Request :=
  { cmd := .inr ["sleep", "5"], arguments := [], timeout := some 1 }

/-- A child that would exit at tick 3, after the timeout. -/
def behC4w : Behavior :=
  { exitCode := 0, outBytes := [], errBytes := [], exitTime := 3, rounds := [] }

/-- A pty request whose command is the single string `"a b"`. -/
def reqC5a : Request :=
  { cmd := .inl "a b", arguments := [], tty := some true, timeout := some 1 }

/-- A pty child that is still running when elapsed time 2 exceeds timeout 1. -/
def behC5a : Behavior :=
  { exitCode := 0, outBytes := [], errBytes := [], exitTime := 9,
    rounds := [{ events := [], elapsed := 2 }] }

/-- A pty request whose command is the vector `["a", "b"]`. -/
def reqC5b : Request :=
  { cmd := .inr ["a", "b"], arguments := [], tty := some true, timeout := some 1 }

/-- The same timing as `behC5a`. -/
def behC5b : Behavior :=
  { exitCode := 0, outBytes := [], errBytes := [], exitTime := 9,
    rounds := [{ events := [], elapsed := 2 }] }

/-- A pipe-mode request with a 2-tick timeout. -/
def reqC5w : Request :=
  { cmd := .inr ["sleep"], arguments := [], timeout := some 2 }

/-- A child that would exit at tick 4, after the timeout. -/
def behC5w : Behavior :=
  { exitCode := 0, outBytes := [], errBytes := [], exitTime := 4, rounds := [] }

/-- The timeout error produced for `reqC5w` / `behC5w`. -/
def eC5w : TimeoutExpiredData := { cmd := .list ["sleep"], timeout := 2 }

/-- A request asking for a pty while also asking not to capture. -/
def reqC6w : Request :=
  { cmd := .inr ["prog"], arguments := [], tty := some true, capture := some false }

/-- An uncaptured request. -/
def reqC7w : Request :=
  { cmd := .inr ["prog"], arguments := [], capture := some false }

/-- A child that prints a byte on each stream and exits 0. -/
def behC7w : Behavior :=
  { exitCode := 0, outBytes := [120], errBytes := [121], exitTime := 0, rounds := [] }

/-- An uncaptured request with text mode disabled. -/
def reqC10w : Request :=
  { cmd := .inr ["prog"], arguments := [], capture := some false, text := some false }

/-- A child that prints a byte on each stream and exits 0. -/
def behC10w : Behavior :=
  { exitCode := 0, outBytes := [120], errBytes := [121], exitTime := 0, rounds := [] }

/-! ## Helper lemmas -/

theorem envLookup_cons (k' v : String) (rest : Env) (k : String) :
    envLookup ((k', v) :: rest) k = if k' = k then some v else envLookup rest k := rfl

theorem envLookup_map_self (d : Env) (kv : String × String)
    (h : hasKey d kv.1 = true) :
    envLookup (d.map fun p => if p.1 = kv.1 then kv else p) kv.1 = some kv.2 := by
  induction d with
  | nil => simp [hasKey, envLookup] at h
  | cons p rest ih =>
    obtain ⟨k', v⟩ := p
    dsimp only [List.map_cons]
    by_cases hp : k' = kv.1
    · rw [if_pos hp]
      obtain ⟨k2, v2⟩ := kv
      rw [envLookup_cons, if_pos rfl]
    · rw [if_neg hp, envLookup_cons, if_neg hp]
      apply ih
      rw [hasKey, envLookup_cons, if_neg hp] at h
      exact h

theorem envLookup_map_other (d : Env) (kv : String × String) (k : String)
    (hk : k ≠ kv.1) :
    envLookup (d.map fun p => if p.1 = kv.1 then kv else p) k = envLookup d k := by
  induction d with
  | nil => rfl
  | cons p rest ih =>
    obtain ⟨k', v⟩ := p
    dsimp only [List.map_cons]
    by_cases hp : k' = kv.1
    · rw [if_pos hp]
      obtain ⟨k2, v2⟩ := kv
      rw [envLookup_cons, envLookup_cons]
      have h1 : ¬(k2 = k) := fun he => hk (by simpa using he.symm)
      have h2 : ¬(k' = k) := by
        subst hp; exact h1
      rw [if_neg h1, if_neg h2, ih]
    · rw [if_neg hp, envLookup_cons, envLookup_cons, ih]

theorem envLookup_append_single (d : Env) (kv : String × String) (k : String) :
    envLookup (d ++ [kv]) k =
      lookupOverlay (envLookup d k) (if kv.1 = k then some kv.2 else none) := by
  induction d with
  | nil =>
    obtain ⟨k2, v2⟩ := kv
    by_cases hp : k2 = k
    · simp [envLookup_cons, envLookup, lookupOverlay, hp]
    · simp [envLookup_cons, envLookup, lookupOverlay, hp]
  | cons p rest ih =>
    obtain ⟨k', v⟩ := p
    rw [List.cons_append, envLookup_cons, envLookup_cons]
    by_cases hp : k' = k
    · rw [if_pos hp, if_pos hp, lookupOverlay]
    · rw [if_neg hp, if_neg hp, ih]

theorem envLookup_dictInsert_self (d : Env) (kv : String × String) :
    envLookup (dictInsert d kv) kv.1 = some kv.2 := by
  unfold dictInsert
  by_cases h : hasKey d kv.1 = true
  · rw [if_pos h]
    exact envLookup_map_self d kv h
  · rw [if_neg h, envLookup_append_single, if_pos rfl]
    have h0 : envLookup d kv.1 = none := by
      rcases he : envLookup d kv.1 with _ | v
      · rfl
      · exact absurd (by simp [hasKey, he]) h
    rw [h0, lookupOverlay]

theorem envLookup_dictInsert_other (d : Env) (kv : String × String) (k : String)
    (hk : k ≠ kv.1) :
    envLookup (dictInsert d kv) k = envLookup d k := by
  unfold dictInsert
  by_cases h : hasKey d kv.1 = true
  · rw [if_pos h]
    exact envLookup_map_other d kv k hk
  · rw [if_neg h, envLookup_append_single]
    have h2 : ¬(kv.1 = k) := fun he => hk he.symm
    rw [if_neg h2]
    rcases envLookup d k with _ | v <;> rfl

theorem envLookup_eq_none_of_not_mem (d : Env) (k : String)
    (h : k ∉ d.map Prod.fst) :
    envLookup d k = none := by
  induction d with
  | nil => rfl
  | cons p rest ih =>
    obtain ⟨k', v⟩ := p
    simp only [List.map_cons, List.mem_cons] at h
    push_neg at h
    have h2 : ¬(k' = k) := fun he => h.1 he.symm
    rw [envLookup_cons, if_neg h2]
    exact ih h.2

theorem envLookup_dictMerge (ov : Env) (base : Env) (k : String)
    (hnodup : (ov.map Prod.fst).Nodup) :
    envLookup (dictMerge base ov) k =
      lookupOverlay (envLookup ov k) (envLookup base k) := by
  induction ov generalizing base with
  | nil => simp [dictMerge, envLookup, lookupOverlay]
  | cons kv rest ih =>
    simp only [List.map_cons, List.nodup_cons] at hnodup
    have hmerge : dictMerge base (kv :: rest) = dictMerge (dictInsert base kv) rest := rfl
    rw [hmerge, ih (dictInsert base kv) hnodup.2]
    obtain ⟨k', v⟩ := kv
    rw [envLookup_cons]
    by_cases hk : k' = k
    · subst hk
      have hrest : envLookup rest k' = none :=
        envLookup_eq_none_of_not_mem rest k' hnodup.1
      rw [hrest, if_pos rfl]
      rw [envLookup_dictInsert_self base (k', v)]
      rfl
    · have hother := envLookup_dictInsert_other base (k', v) k (fun he => hk he.symm)
      rw [if_neg hk, hother]

theorem finishCheck_procError_iff (r : Request) (hc : r.check = true)
    (cs : List String) (code : Int) (out err : StrOrBytes) :
    (∃ e, finishCheck r cs code out err = .procError e) ↔ code ≠ 0 := by
  unfold finishCheck
  rw [hc]
  by_cases h0 : code = 0
  · subst h0; simp
  · simp [h0]

theorem finishCheck_ne_timeoutExpired (r : Request) (cs : List String) (code : Int)
    (out err : StrOrBytes) (e : TimeoutExpiredData) :
    finishCheck r cs code out err ≠ .timeoutExpired e := by
  unfold finishCheck
  split <;> simp

theorem finishCheck_ok_inversion (r : Request) (cs : List String) (code : Int)
    (out err : StrOrBytes) (c : Int) (o e : StrOrBytes)
    (h : finishCheck r cs code out err = .ok c o e) :
    c = code ∧ o = out ∧ e = err := by
  unfold finishCheck at h
  split at h
  · cases h
  · injection h with h1 h2 h3
    exact ⟨h1.symm, h2.symm, h3.symm⟩

theorem ptyLoop_none_ne_timedOut (rounds : List PtyRound) (s s' : PtyState) :
    ptyLoop none rounds s ≠ .timedOut s' := by
  induction rounds generalizing s with
  | nil => simp [ptyLoop]
  | cons round rest ih =>
    simp only [ptyLoop]
    split
    · simp
    · exact ih _

theorem effTty_eq_false_of_capture_false (r : Request) (h : effCapture r = false) :
    effTty r = false := by
  unfold effCapture at h
  by_cases htty : effTty r = true
  · rw [if_pos htty] at h; cases h
  · exact Bool.not_eq_true _ |>.mp htty

theorem command_check_procError_iff (r : Request) (environ : Env) (beh : Behavior)
    (hc : r.check = true) (h : completes (command r environ beh).1 = true) :
    (∃ e, (command r environ beh).1 = .procError e) ↔ beh.exitCode ≠ 0 := by
  simp only [command] at h ⊢
  by_cases htty : effTty r = true
  · simp only [htty, if_true] at h ⊢
    rcases hp : ptyLoop r.timeout beh.rounds initPtyState with s | s | s <;>
      simp only [hp] at h ⊢
    · exact finishCheck_procError_iff r hc _ _ _ _
    · simp [completes] at h
    · simp [completes] at h
  · simp only [htty] at h ⊢
    simp only [Bool.false_eq_true, if_false] at h ⊢
    by_cases htf : timeoutFires r beh = true
    · simp only [htf, if_true] at h
      simp [completes] at h
    · simp only [htf] at h ⊢
      simp only [Bool.false_eq_true, if_false] at h ⊢
      exact finishCheck_procError_iff r hc _ _ _ _

/-! ## The claims -/

/-- Claim C1: for every command and input, `command_ex` (`command` with
`check` forced true) raises `CalledProcessError` if and only if the child's
exit code is non-zero, and never when the exit code is 0.  Stated for every
run that completes (returns or raises `CalledProcessError`): raising
happens exactly when the exit code is non-zero. -/
theorem claim_C1_run_checked_iff_nonzero (r : Request) (environ : Env)
    (beh : Behavior) (h : completes (command_ex r environ beh).1 = true) :
    (∃ e, (command_ex r environ beh).1 = .procError e) ↔ beh.exitCode ≠ 0 :=
  command_check_procError_iff { r with check := true } environ beh rfl h

/-- Witness for C1: a completing run whose child exits with code 5 raises
`CalledProcessError`. -/
theorem claim_C1_witness :
    completes (command_ex reqC1w [] behC1w).1 = true ∧
    ((∃ e, (command_ex reqC1w [] behC1w).1 = .procError e) ↔ behC1w.exitCode ≠ 0) :=
  ⟨by decide, claim_C1_run_checked_iff_nonzero reqC1w [] behC1w (by decide)⟩

/-- Claim C2, amended: when `inherit_env` is absent it defaults to true;
when inheriting, the child's environment is the caller-supplied mapping
overlaid on a copy of the current process environment (stated via lookups,
assuming the supplied mapping has no duplicate keys, as a Python dict);
when not inheriting and a mapping is supplied it is used exactly; when not
inheriting and the mapping is absent, the child INHERITS the current
process environment (Popen's `env=None` semantics) — not, as the claim
stated, an empty environment. -/
theorem claim_C2_env_overlay_amended (r : Request) (environ : Env)
    (hnodup : ((r.env.getD []).map Prod.fst).Nodup) :
    (r.inherit_env = none → effInheritEnv r = true) ∧
    (effInheritEnv r = true →
      ∀ k, envLookup (childEnv r environ) k
        = lookupOverlay (envLookup (r.env.getD []) k) (envLookup environ k)) ∧
    (effInheritEnv r = false → ∀ e, r.env = some e → childEnv r environ = e) ∧
    (effInheritEnv r = false → r.env = none → childEnv r environ = environ) := by
  refine ⟨?_, ?_, ?_, ?_⟩
  · intro h
    rw [effInheritEnv, h]
    rfl
  · intro h k
    have hce : childEnv r environ = dictMerge environ (r.env.getD []) := by
      unfold childEnv mergedEnv
      rw [if_pos h]
    rw [hce]
    exact envLookup_dictMerge _ _ _ hnodup
  · intro h e he
    unfold childEnv mergedEnv
    rw [if_neg (by rw [h]; exact fun hc => Bool.false_ne_true hc), he]
  · intro h he
    unfold childEnv mergedEnv
    rw [if_neg (by rw [h]; exact fun hc => Bool.false_ne_true hc), he]

/-- Counterexample for C2 as stated: with `inherit_env=False` and no
environment mapping, a child spawned while the current environment is
`[("HOME", "/root")]` receives that environment, not the empty one the
claim asserts. -/
theorem claim_C2_counterexample :
    effInheritEnv reqC2cex = false ∧ reqC2cex.env = none ∧
    childEnv reqC2cex [("HOME", "/root")] = [("HOME", "/root")] ∧
    childEnv reqC2cex [("HOME", "/root")] ≠ [] := by
  refine ⟨rfl, rfl, rfl, ?_⟩
  decide

/-- Witness for C2: with the default `inherit_env` and the supplied entry
`("K", "V")`, the overlay entry wins over the inherited `("K", "old")`. -/
theorem claim_C2_witness :
    ((reqC2w.env.getD []).map Prod.fst).Nodup ∧
    envLookup (childEnv reqC2w [("K", "old"), ("H", "1")]) "K" = some "V" := by
  refine ⟨by decide, ?_⟩
  have h := (claim_C2_env_overlay_amended reqC2w [("K", "old"), ("H", "1")]
    (by decide)).2.1 rfl "K"
  rw [h]
  rfl

/-- Claim C3 (code bug): the claim says the pty loop terminates only when
no bytes are pending, so every byte written before exit is captured.  On
the schedule of `behC3` — the child writes byte 0x78 to stdout and exits,
both becoming visible before the parent's next `poll()` — the loop (a
faithful model of `while subproc.poll() is None: ...`) terminates with the
byte still pending on the master and never read: `run` returns empty
stdout although the child wrote 0x78 before exiting. -/
theorem claim_C3_pty_output_loss :
    ptyLoop none behC3.rounds initPtyState
      = .finished { childExited := true, outBuf := [120], errBuf := [],
                    capOut := [], capErr := [] } ∧
    ptyWrittenOut behC3.rounds = [120] ∧
    (command rC3 [] behC3).1 = .ok 0 (.s "") (.s "") :=
  ⟨rfl, rfl, rfl⟩

/-- Claim C4: whenever `command` raises `TimeoutExpired` — in pipe mode and
in pty mode alike — the child was killed and then reaped (`wait`) before
the raise, and nothing else happened to it afterwards. -/
theorem claim_C4_timeout_kill_reap (r : Request) (environ : Env) (beh : Behavior)
    (e : TimeoutExpiredData) (h : (command r environ beh).1 = .timeoutExpired e) :
    (command r environ beh).2 = [.spawn, .kill, .wait, .raiseTimeout] := by
  simp only [command] at h ⊢
  by_cases htty : effTty r = true
  · simp only [htty, if_true] at h ⊢
    rcases hp : ptyLoop r.timeout beh.rounds initPtyState with s | s | s
    · simp only [hp] at h
      exact absurd h (finishCheck_ne_timeoutExpired _ _ _ _ _ _)
    · simp [hp]
    · simp only [hp] at h
      cases h
  · simp only [htty, Bool.false_eq_true, if_false] at h ⊢
    by_cases htf : timeoutFires r beh = true
    · simp only [htf, if_true]
    · simp only [htf, Bool.false_eq_true, if_false] at h
      exact absurd h (finishCheck_ne_timeoutExpired _ _ _ _ _ _)

/-- Witness for C4: a pipe-mode run whose child outlives the 1-tick timeout
performs spawn, kill, reap, raise in that order. -/
theorem claim_C4_witness :
    (command reqC4w [] behC4w).1
      = .timeoutExpired { cmd := .list ["sleep", "5"], timeout := 1 } ∧
    (command reqC4w [] behC4w).2 = [.spawn, .kill, .wait, .raiseTimeout] :=
  ⟨by decide,
   claim_C4_timeout_kill_reap reqC4w [] behC4w
     { cmd := .list ["sleep", "5"], timeout := 1 } (by decide)⟩

/-- Claim C5, amended: every `TimeoutExpired` raised by `command` carries
the timeout value that was exceeded, and is raised only on the timeout
path; in pipe mode it carries the resolved argument vector, but in pty
mode it carries only the space-joined command string (which does not
determine the vector). -/
theorem claim_C5_timeout_payload_amended (r : Request) (environ : Env)
    (beh : Behavior) (e : TimeoutExpiredData)
    (h : (command r environ beh).1 = .timeoutExpired e) :
    r.timeout = some e.timeout ∧
    (effTty r = false → e.cmd = CmdField.list (cmds r) ∧ timeoutFires r beh = true) ∧
    (effTty r = true → e.cmd = CmdField.str (String.intercalate " " (cmds r))) := by
  simp only [command] at h
  by_cases htty : effTty r = true
  · simp only [htty, if_true] at h
    rcases hp : ptyLoop r.timeout beh.rounds initPtyState with s | s | s <;>
      simp only [hp] at h
    · exact absurd h (finishCheck_ne_timeoutExpired _ _ _ _ _ _)
    · rcases ht : r.timeout with _ | t
      · rw [ht] at hp
        exact absurd hp (ptyLoop_none_ne_timedOut _ _ _)
      · cases h
        refine ⟨by rw [ht]; rfl, ?_, ?_⟩
        · intro hf; rw [htty] at hf; cases hf
        · intro _; rfl
    · cases h
  · simp only [htty, Bool.false_eq_true, if_false] at h
    by_cases htf : timeoutFires r beh = true
    · simp only [htf, if_true] at h
      have ht : ∃ t, r.timeout = some t := by
        rcases ht : r.timeout with _ | t
        · rw [timeoutFires, ht] at htf; cases htf
        · exact ⟨t, rfl⟩
      obtain ⟨t, ht⟩ := ht
      cases h
      refine ⟨by rw [ht]; rfl, ?_, ?_⟩
      · intro _; exact ⟨rfl, htf⟩
      · intro hf; rw [hf] at htty; exact absurd rfl htty
    · simp only [htf, Bool.false_eq_true, if_false] at h
      exact absurd h (finishCheck_ne_timeoutExpired _ _ _ _ _ _)

/-- Counterexample for C5 as stated: two requests with different resolved
argument vectors (`["a b"]` versus `["a", "b"]`) produce the identical
pty-mode timeout error, so that error cannot carry the resolved argument
vector. -/
theorem claim_C5_counterexample :
    cmds reqC5a ≠ cmds reqC5b ∧
    (command reqC5a [] behC5a).1
      = .timeoutExpired { cmd := .str "a b", timeout := 1 } ∧
    (command reqC5b [] behC5b).1
      = .timeoutExpired { cmd := .str "a b", timeout := 1 } := by
  refine ⟨by decide, by decide, by decide⟩

/-- Witness for C5: a pipe-mode timeout carries the argument vector and the
2-tick timeout value. -/
theorem claim_C5_witness :
    reqC5w.timeout = some eC5w.timeout ∧
    (effTty reqC5w = false →
      eC5w.cmd = CmdField.list (cmds reqC5w) ∧ timeoutFires reqC5w behC5w = true) ∧
    (effTty reqC5w = true →
      eC5w.cmd = CmdField.str (String.intercalate " " (cmds reqC5w))) :=
  claim_C5_timeout_payload_amended reqC5w [] behC5w eC5w (by decide)

/-- Claim C6: `tty=true` forces the effective capture mode to true,
regardless of the `capture` value the caller supplied. -/
theorem claim_C6_tty_forces_capture (r : Request) (h : effTty r = true) :
    effCapture r = true := by
  unfold effCapture
  rw [if_pos h]

/-- Witness for C6: a request with `tty=True` and `capture=False` still has
effective capture true. -/
theorem claim_C6_witness :
    effTty reqC6w = true ∧ effCapture reqC6w = true :=
  ⟨rfl, claim_C6_tty_forces_capture reqC6w rfl⟩

/-- Claim C7: with `capture=false` (which entails pipe mode: pty forces
capture), a returning `command` call yields empty string stdout and stderr
whatever the child printed; and with capture on, empty child streams yield
the empty string in text mode and the empty bytes value otherwise — never
a null marker, which the result type cannot even express. -/
theorem claim_C7_uncaptured_and_empty_outputs (r : Request) (environ : Env)
    (beh : Behavior) :
    (effCapture r = false →
      ∀ c o e, (command r environ beh).1 = .ok c o e → o = .s "" ∧ e = .s "") ∧
    (effCapture r = true → effTty r = false →
      beh.outBytes = [] → beh.errBytes = [] →
      ∀ c o e, (command r environ beh).1 = .ok c o e →
        (text_mode r = true → o = .s "" ∧ e = .s "") ∧
        (text_mode r = false → o = .b [] ∧ e = .b [])) := by
  constructor
  · intro hcap c o e h
    have htty := effTty_eq_false_of_capture_false r hcap
    simp only [command, htty, Bool.false_eq_true, if_false] at h
    by_cases htf : timeoutFires r beh = true
    · simp only [htf, if_true] at h; cases h
    · simp only [htf, Bool.false_eq_true, if_false, hcap] at h
      obtain ⟨_, ho, he⟩ := finishCheck_ok_inversion _ _ _ _ _ _ _ _ h
      exact ⟨ho, he⟩
  · intro hcap htty hob heb c o e h
    simp only [command, htty, Bool.false_eq_true, if_false] at h
    by_cases htf : timeoutFires r beh = true
    · simp only [htf, if_true] at h; cases h
    · simp only [htf, Bool.false_eq_true, if_false, hcap, if_true, hob, heb] at h
      obtain ⟨_, ho, he⟩ := finishCheck_ok_inversion _ _ _ _ _ _ _ _ h
      constructor
      · intro htm
        rw [ho, he]
        simp [captured, htm, decodeBytes]
      · intro htm
        rw [ho, he]
        simp [captured, htm]

/-- Witness for C7: an uncaptured run whose child prints a byte on each
stream still returns empty string stdout and stderr. -/
theorem claim_C7_witness :
    effCapture reqC7w = false ∧
    (command reqC7w [] behC7w).1 = .ok 0 (.s "") (.s "") ∧
    (StrOrBytes.s "" = .s "" ∧ StrOrBytes.s "" = .s "") :=
  ⟨by decide, by decide,
   (claim_C7_uncaptured_and_empty_outputs reqC7w [] behC7w).1 (by decide)
     0 (.s "") (.s "") (by decide)⟩

/-- Claim C8: a `CalledProcessError` built from `(code, out, err, cmd,
options)` exposes `stdout`/`stderr` as exactly the original values, `cmd`
and `options` as given, and `out`/`err` as the `splitlines` decomposition
of `stdout`/`stderr`. -/
theorem claim_C8_proc_error_roundtrip (code : Int) (out err : StrOrBytes)
    (cmd : List String) (opts : ProcErrorOptions) :
    (CalledProcessError.make code out err cmd opts).returncode = code ∧
    (CalledProcessError.make code out err cmd opts).stdout = out ∧
    (CalledProcessError.make code out err cmd opts).stderr = err ∧
    (CalledProcessError.make code out err cmd opts).cmd = cmd ∧
    (CalledProcessError.make code out err cmd opts).options = opts ∧
    (CalledProcessError.make code out err cmd opts).out = splitlinesSB out ∧
    (CalledProcessError.make code out err cmd opts).err = splitlinesSB err :=
  ⟨rfl, rfl, rfl, rfl, rfl, rfl, rfl⟩

/-- Claim C9: `_waitpid` never surfaces `EINTR` (such attempts are retried
transparently); after any run of `EINTR`s a successful `waitpid` makes it
return, any other errno makes it re-raise exactly that errno; and it
returns only if some `waitpid` attempt actually succeeded, i.e. only after
the child pid was reaped. -/
theorem claim_C9_waitpid_retry :
    (∀ trace, waitpidLoop trace ≠ .raised EINTR) ∧
    (∀ n rest, waitpidLoop (List.replicate n (WaitAttempt.err EINTR) ++
      WaitAttempt.ok :: rest) = .returned) ∧
    (∀ n e rest, e ≠ EINTR → waitpidLoop (List.replicate n (WaitAttempt.err EINTR) ++
      WaitAttempt.err e :: rest) = .raised e) ∧
    (∀ trace, waitpidLoop trace = .returned → WaitAttempt.ok ∈ trace) := by
  refine ⟨?_, ?_, ?_, ?_⟩
  · intro trace
    induction trace with
    | nil => simp [waitpidLoop]
    | cons a rest ih =>
      cases a with
      | ok => simp [waitpidLoop]
      | err e =>
        by_cases he : e = EINTR
        · simpa [waitpidLoop, he] using ih
        · simp only [waitpidLoop, if_neg he]
          intro hc
          injection hc with h1
          exact he h1
  · intro n rest
    induction n with
    | zero => rfl
    | succ m ih =>
      rw [List.replicate_succ, List.cons_append]
      simpa [waitpidLoop] using ih
  · intro n e rest he
    induction n with
    | zero =>
      simp only [List.replicate_zero, List.nil_append, waitpidLoop, if_neg he]
    | succ m ih =>
      rw [List.replicate_succ, List.cons_append]
      simpa [waitpidLoop] using ih
  · intro trace h
    induction trace with
    | nil => cases h
    | cons a rest ih =>
      cases a with
      | ok => exact List.mem_cons_self _ _
      | err e =>
        by_cases he : e = EINTR
        · rw [waitpidLoop, if_pos he] at h
          exact List.mem_cons_of_mem _ (ih h)
        · rw [waitpidLoop, if_neg he] at h
          cases h

/-- Witness for C9: one `EINTR` then success returns; one `EINTR` then
`EACCES` (13) raises 13. -/
theorem claim_C9_witness :
    waitpidLoop [WaitAttempt.err 4, WaitAttempt.ok] = .returned ∧
    waitpidLoop [WaitAttempt.err 4, WaitAttempt.err 13] = .raised 13 := by
  constructor
  · have h := claim_C9_waitpid_retry.2.1 1 ([] : List WaitAttempt)
    simpa [EINTR] using h
  · have h := claim_C9_waitpid_retry.2.2.1 1 13 ([] : List WaitAttempt) (by decide)
    simpa [EINTR] using h

/-- Claim C10: with `capture=false` (and hence no pty) and text mode
disabled, a returning `command` call still yields stdout and stderr as
empty `str` values — the caller never receives a bytes-typed empty output
in uncaptured mode. -/
theorem claim_C10_uncaptured_empty_is_str (r : Request) (environ : Env)
    (beh : Behavior) (hcap : effCapture r = false) (_htext : text_mode r = false) :
    ∀ c o e, (command r environ beh).1 = .ok c o e →
      o = .s "" ∧ e = .s "" ∧ (∀ bs, o ≠ .b bs) ∧ (∀ bs, e ≠ .b bs) := by
  intro c o e h
  have htty := effTty_eq_false_of_capture_false r hcap
  simp only [command, htty, Bool.false_eq_true, if_false] at h
  by_cases htf : timeoutFires r beh = true
  · simp only [htf, if_true] at h; cases h
  · simp only [htf, Bool.false_eq_true, if_false, hcap] at h
    obtain ⟨_, ho, he⟩ := finishCheck_ok_inversion _ _ _ _ _ _ _ _ h
    subst ho he
    refine ⟨rfl, rfl, ?_, ?_⟩ <;> intro bs hb <;> cases hb

/-- Witness for C10: an uncaptured binary-mode run returns `str` empties. -/
theorem claim_C10_witness :
    effCapture reqC10w = false ∧ text_mode reqC10w = false ∧
    (command reqC10w [] behC10w).1 = .ok 0 (.s "") (.s "") ∧
    (StrOrBytes.s "" = .s "" ∧ StrOrBytes.s "" = .s "" ∧
     (∀ bs, StrOrBytes.s "" ≠ .b bs) ∧ (∀ bs, StrOrBytes.s "" ≠ .b bs)) :=
  ⟨by decide, by decide, by decide,
   claim_C10_uncaptured_empty_is_str reqC10w [] behC10w (by decide) (by decide)
     0 (.s "") (.s "") (by decide)⟩

end K3Proc
